import Mathlib

/-!
Verification of the CO2-calculator core (emissions, renovation subsidies,
financial evaluation, ranking, portfolio selection).

The Python modules are shallowly embedded: scenario dicts become a record of
optional fields (key present ⇔ `some`), `dict.get` with default becomes
`Option.getD` / `dictGet`, Python floats become `ℚ`, `float("inf")` results
become `none : Option ℚ`, and the module-level assumption tables
(`ENERGIEPREISE`, `CO2_ABGABE_CHF_PRO_T`) become an explicit `ModuleState`
threaded through the functions that read them, so that (non-)mutation of the
module globals is visible in the embedding.
-/

namespace CO2Calc

/-- Python `d.get(k, dflt)` over an association-list embedding of a dict. -/
def dictGet (d : List (String × ℚ)) (k : String) (dflt : ℚ) : ℚ :=
  match d.lookup k with
  | some v => v
  | none => dflt

/-- `wirtschaftlichkeit.ENERGIEPREISE` (CHF/kWh). -/
def ENERGIEPREISE : List (String × ℚ) :=
  [("Gas", 0.12), ("Öl", 0.13), ("Fernwärme", 0.14), ("Strom", 0.25), ("Wärmepumpe", 0.20)]

/-- `wirtschaftlichkeit.PREISSTEIGERUNG_PROZENT`. -/
def PREISSTEIGERUNG_PROZENT : ℚ := 2.5

/-- `wirtschaftlichkeit.DISKONTIERUNGSSATZ`. -/
def DISKONTIERUNGSSATZ : ℚ := 2.0

/-- `wirtschaftlichkeit.CO2_ABGABE_CHF_PRO_T`. -/
def CO2_ABGABE_CHF_PRO_T : ℚ := 120

/-- `wirtschaftlichkeit.NPV_ZEITRAUM_JAHRE`. -/
def NPV_ZEITRAUM_JAHRE : ℕ := 25

/-- The module-level mutable bindings of `wirtschaftlichkeit.py`; threading this
state through the call chain makes mutation (or its absence) provable. -/
structure ModuleState where
  energiepreise : List (String × ℚ)
  co2_abgabe : ℚ
deriving Repr, DecidableEq

/-- The initial module state, as defined at the top of `wirtschaftlichkeit.py`. -/
def initState : ModuleState :=
  { energiepreise := ENERGIEPREISE, co2_abgabe := CO2_ABGABE_CHF_PRO_T }

/-- A scenario dict (`sanierung`); a key being present corresponds to `some`.
Fields cover every key the embedded functions read or write. -/
structure Sanierung where
  neue_heizung : Option String
  neuer_verbrauch_kwh : Option ℚ
  energieeinsparung_kwh_jahr : Option ℚ
  eigenverbrauch_kwh : Option ℚ
  co2_einsparung_kg_jahr : Option ℚ
  investition_brutto_chf : Option ℚ
  investition_chf : Option ℚ
  investition_netto_chf : Option ℚ
  foerderung_chf : Option ℚ
  lebensdauer_jahre : Option ℕ
  amortisation_jahre : Option (Option ℚ)
  npv_chf : Option ℚ
  roi_prozent : Option ℚ
  jaehrliche_einsparung_chf : Option ℚ
  prioritaets_score : Option ℚ
  rang : Option ℕ
deriving Repr, DecidableEq

/-- A scenario dict with no keys set. -/
def Sanierung.leer : Sanierung :=
  ⟨none, none, none, none, none, none, none, none, none, none, none, none, none, none,
    none, none⟩

/-- Result dict of `berechne_jaehrliche_einsparung`. -/
structure Einsparung where
  alte_energiekosten_chf : ℚ
  neue_energiekosten_chf : ℚ
  energiekosteneinsparung_chf : ℚ
  co2_abgabe_einsparung_chf : ℚ
  gesamteinsparung_chf_jahr : ℚ
deriving Repr, DecidableEq

/-- Common tail of `berechne_jaehrliche_einsparung` (lines 116-130): the CO2-tax
saving and the totals assembled from old/new energy cost. -/
def einsparungAbschluss (alte_kosten neue_kosten : ℚ) (s : Sanierung)
    (co2_abgabe_chf_pro_t : ℚ) : Einsparung :=
  let energiekosteneinsparung := alte_kosten - neue_kosten
  let co2_einsparung_t := s.co2_einsparung_kg_jahr.getD 0 / 1000
  let co2_abgabe_einsparung := co2_einsparung_t * co2_abgabe_chf_pro_t
  { alte_energiekosten_chf := alte_kosten
    neue_energiekosten_chf := neue_kosten
    energiekosteneinsparung_chf := energiekosteneinsparung
    co2_abgabe_einsparung_chf := co2_abgabe_einsparung
    gesamteinsparung_chf_jahr := energiekosteneinsparung + co2_abgabe_einsparung }

/-- `wirtschaftlichkeit.berechne_jaehrliche_einsparung` (lines 72-130), after
resolution of the `energiepreise=None` default (callers pass the table they
use; the module-level default is supplied by the caller embeddings). -/
def berechne_jaehrliche_einsparung (s : Sanierung) (alte_heizung : String)
    (alter_verbrauch_kwh : ℚ) (energiepreise : List (String × ℚ))
    (co2_abgabe_chf_pro_t : ℚ) : Einsparung :=
  let alter_preis := dictGet energiepreise alte_heizung 0.12
  let alte_kosten := alter_verbrauch_kwh * alter_preis
  match s.neue_heizung, s.energieeinsparung_kwh_jahr, s.eigenverbrauch_kwh with
  | some neue_heizung, _, _ =>
    let neuer_verbrauch := s.neuer_verbrauch_kwh.getD alter_verbrauch_kwh
    let neuer_preis := dictGet energiepreise neue_heizung 0.12
    einsparungAbschluss alte_kosten (neuer_verbrauch * neuer_preis) s co2_abgabe_chf_pro_t
  | none, some einsparung, _ =>
    let neue_kosten := max 0 (alter_verbrauch_kwh - einsparung) * alter_preis
    einsparungAbschluss alte_kosten neue_kosten s co2_abgabe_chf_pro_t
  | none, none, some eigenverbrauch =>
    let strom_preis := dictGet energiepreise "Strom" 0.25
    let einsparung_chf := eigenverbrauch * strom_preis
    { alte_energiekosten_chf := 0
      neue_energiekosten_chf := 0
      energiekosteneinsparung_chf := einsparung_chf
      co2_abgabe_einsparung_chf := 0
      gesamteinsparung_chf_jahr := einsparung_chf }
  | none, none, none =>
    einsparungAbschluss alte_kosten alte_kosten s co2_abgabe_chf_pro_t

/-- `wirtschaftlichkeit._get_brutto_investition` (lines 43-54). -/
def getBruttoInvestition (s : Sanierung) : ℚ :=
  match s.investition_brutto_chf with
  | some v => v
  | none =>
    match s.investition_chf with
    | some v => v
    | none => max 0 (s.investition_netto_chf.getD 0 + s.foerderung_chf.getD 0)

/-- `wirtschaftlichkeit._get_netto_investition` (lines 57-66). -/
def getNettoInvestition (s : Sanierung) : ℚ :=
  match s.investition_netto_chf with
  | some v => max 0 v
  | none => max 0 (getBruttoInvestition s - s.foerderung_chf.getD 0)

/-- `wirtschaftlichkeit.berechne_amortisation` (lines 136-145);
`none` models the Python result `float("inf")`. -/
def berechne_amortisation (netto_investition jaehrliche_einsparung : ℚ) : Option ℚ :=
  if jaehrliche_einsparung ≤ 0 then none
  else some (netto_investition / jaehrliche_einsparung)

/-- The accumulation loop of `berechne_npv` (lines 165-169): partial sums of the
discounted escalated savings for years `1..n`. -/
def npvSumme (save0 g r : ℚ) : ℕ → ℚ
  | 0 => 0
  | n + 1 => npvSumme save0 g r n + save0 * (1 + g) ^ (n + 1) / (1 + r) ^ (n + 1)

/-- `wirtschaftlichkeit.berechne_npv` (lines 148-171). -/
def berechne_npv (netto_investition jaehrliche_einsparung : ℚ) (zeitraum_jahre : ℕ)
    (diskontierungssatz preissteigerung : ℚ) : ℚ :=
  -netto_investition +
    npvSumme jaehrliche_einsparung (preissteigerung / 100) (diskontierungssatz / 100)
      zeitraum_jahre

/-- `wirtschaftlichkeit.berechne_roi` (lines 174-184). -/
def berechne_roi (netto_investition jaehrliche_einsparung : ℚ) : ℚ :=
  if netto_investition ≤ 0 then 0
  else jaehrliche_einsparung / netto_investition * 100

/-- `wirtschaftlichkeit.berechne_roi_lebensdauer` (lines 187-199). -/
def berechne_roi_lebensdauer (netto_investition jaehrliche_einsparung : ℚ)
    (zeitraum_jahre : ℕ) : ℚ :=
  if netto_investition ≤ 0 then 0
  else (jaehrliche_einsparung * zeitraum_jahre - netto_investition) / netto_investition * 100

/-- Concrete envelope scenario used to separate the claimed unclamped formula
from the code's clamped one: 1 kWh/year saved on a consumption of 0 kWh. -/
def huelleSzenario : Sanierung :=
  { Sanierung.leer with energieeinsparung_kwh_jahr := some 1 }

/-- `emissionen.KBOB_FAKTOREN` (kg CO2e/kWh). -/
def KBOB_FAKTOREN : List (String × ℚ) :=
  [("Gas", 0.228), ("Öl", 0.302), ("Fernwärme", 0.095), ("Wärmepumpe", 0.050),
   ("Pellets", 0.026), ("Solar", 0.000), ("Default", 0.050)]

/-- `emissionen.STROM_FAKTOR_CH`. -/
def STROM_FAKTOR_CH : ℚ := 0.122

/-- One row of the building table fed to `berechne_emissionen`. -/
structure GebaeudeZeile where
  heizung_typ : String
  jahresverbrauch_kwh : ℚ
  strom_kwh_jahr : ℚ
deriving Repr, DecidableEq

/-- One output row of `berechne_emissionen`: the input columns plus the
computed emission columns. -/
structure EmissionZeile where
  heizung_typ : String
  jahresverbrauch_kwh : ℚ
  strom_kwh_jahr : ℚ
  faktor_heizen : ℚ
  emissionen_heizen_kg : ℚ
  emissionen_strom_kg : ℚ
  emissionen_gesamt_kg : ℚ
  emissionen_gesamt_t : ℚ
deriving Repr, DecidableEq

/-- Resolution of `heiz_faktoren = custom_heiz_faktoren or KBOB_FAKTOREN`
(line 91): an absent or empty (falsy) custom dict falls back to KBOB. -/
def resolveHeizFaktoren (custom_heiz_faktoren : Option (List (String × ℚ))) :
    List (String × ℚ) :=
  match custom_heiz_faktoren with
  | some fs => if fs.isEmpty then KBOB_FAKTOREN else fs
  | none => KBOB_FAKTOREN

/-- Per-row computation of `emissionen.berechne_emissionen` (lines 94-102):
`map(heiz_faktoren).fillna(heiz_faktoren["Default"])` and the column formulas.
`default_faktor` is the table's `"Default"` entry. -/
def emissionenZeile (heiz_faktoren : List (String × ℚ)) (default_faktor : ℚ)
    (faktor_strom : ℚ) (z : GebaeudeZeile) : EmissionZeile :=
  let faktor_heizen := (heiz_faktoren.lookup z.heizung_typ).getD default_faktor
  let emissionen_heizen_kg := z.jahresverbrauch_kwh * faktor_heizen
  let emissionen_strom_kg := z.strom_kwh_jahr * faktor_strom
  let emissionen_gesamt_kg := emissionen_heizen_kg + emissionen_strom_kg
  { heizung_typ := z.heizung_typ
    jahresverbrauch_kwh := z.jahresverbrauch_kwh
    strom_kwh_jahr := z.strom_kwh_jahr
    faktor_heizen := faktor_heizen
    emissionen_heizen_kg := emissionen_heizen_kg
    emissionen_strom_kg := emissionen_strom_kg
    emissionen_gesamt_kg := emissionen_gesamt_kg
    emissionen_gesamt_t := emissionen_gesamt_kg / 1000 }

/-- `emissionen.berechne_emissionen` (lines 67-104), vectorised over the rows of
the building table. The `fillna` default `heiz_faktoren["Default"]` is looked
up in the resolved table (`.getD 0` is unreachable for tables that carry a
`"Default"` entry, which the theorem assumes, as the Python indexing does). -/
def berechne_emissionen (df : List GebaeudeZeile) (faktor_strom : ℚ)
    (custom_heiz_faktoren : Option (List (String × ℚ))) : List EmissionZeile :=
  let heiz_faktoren := resolveHeizFaktoren custom_heiz_faktoren
  let default_faktor := (heiz_faktoren.lookup "Default").getD 0
  df.map (emissionenZeile heiz_faktoren default_faktor faktor_strom)

/-- One entry of `sanierungen.FOERDERGELDER`; a key being present corresponds
to `some`. -/
structure FoerderConfig where
  gebaeudeprogramm_chf : Option ℚ
  gebaeudeprogramm_chf_pro_m2 : Option ℚ
  einmalverguetung_chf_pro_kwp : Option ℚ
  kanton_zusatz_prozent : Option ℚ
  max_foerderung_chf : Option ℚ
deriving Repr, DecidableEq

/-- `sanierungen.FOERDERGELDER` (lines 73-100). -/
def FOERDERGELDER : List (String × FoerderConfig) :=
  [("heizung_gas_zu_wp", ⟨some 1000, none, none, some 20, some 25000⟩),
   ("heizung_oel_zu_wp", ⟨some 1000, none, none, some 20, some 30000⟩),
   ("daemmung_fassade", ⟨none, some 40, none, none, some 50000⟩),
   ("daemmung_dach", ⟨none, some 35, none, none, some 40000⟩),
   ("fenster", ⟨none, some 70, none, none, some 30000⟩),
   ("solar_pv", ⟨none, none, some 380, none, some 15000⟩)]

/-- A per-unit subsidy term `if key in config and arg: rate * arg`
(lines 303-308): added only when the rate is configured and the argument is
present and truthy (nonzero). -/
def proEinheitTerm (satzOpt arg : Option ℚ) : ℚ :=
  match satzOpt, arg with
  | some satz, some a => if a = 0 then 0 else satz * a
  | _, _ => 0

/-- The percentage-of-investment term (lines 311-313). -/
def kantonZusatzTerm (pOpt : Option ℚ) (investition : ℚ) : ℚ :=
  match pOpt with
  | some p => investition * (p / 100)
  | none => 0

/-- The `foerderung += ...` accumulation of `berechne_foerderung`
(lines 296-313). -/
def foerderungTeilsumme (cfg : FoerderConfig) (investition : ℚ)
    (flaeche kwp : Option ℚ) : ℚ :=
  cfg.gebaeudeprogramm_chf.getD 0
  + proEinheitTerm cfg.gebaeudeprogramm_chf_pro_m2 flaeche
  + proEinheitTerm cfg.einmalverguetung_chf_pro_kwp kwp
  + kantonZusatzTerm cfg.kanton_zusatz_prozent investition

/-- The body of `berechne_foerderung` for a found config (lines 295-322): the
accumulated sum, clamped by the configured cap (absent cap = `float("inf")`,
i.e. no clamp) and then by the gross investment. -/
def foerderungAusConfig (cfg : FoerderConfig) (investition : ℚ)
    (flaeche kwp : Option ℚ) : ℚ :=
  min
    (match cfg.max_foerderung_chf with
     | some m => min (foerderungTeilsumme cfg investition flaeche kwp) m
     | none => foerderungTeilsumme cfg investition flaeche kwp)
    investition

/-- `sanierungen.berechne_foerderung` (lines 272-322). The `gebaeude` argument
is never read by the Python body and is omitted. -/
def berechne_foerderung (sanierung_id : String) (investition : ℚ)
    (flaeche kwp : Option ℚ) : ℚ :=
  match FOERDERGELDER.lookup sanierung_id with
  | none => 0
  | some cfg => foerderungAusConfig cfg investition flaeche kwp

/-- The weight dict of `berechne_prioritaets_score`. -/
structure Gewichtung where
  co2_effizienz : ℚ
  amortisation : ℚ
  npv : ℚ
  co2_absolut : ℚ
deriving Repr, DecidableEq

/-- The default weights of `berechne_prioritaets_score` (lines 26-31). -/
def standardGewichtung : Gewichtung := ⟨0.35, 0.25, 0.20, 0.20⟩

/-- `empfehlungen.berechne_prioritaets_score` (lines 10-68); `amortisation_jahre`
equal to `some none` models a present `float("inf")` entry, an absent key
defaults to infinity as in `sanierung.get(..., float("inf"))`. -/
def berechne_prioritaets_score (s : Sanierung) (gewichtung : Gewichtung) : ℚ :=
  let inv := s.investition_netto_chf.getD 1
  let co2 := s.co2_einsparung_kg_jahr.getD 0
  let score_co2_effizienz :=
    if 0 < inv then
      min (co2 * ((s.lebensdauer_jahre.getD 20 : ℕ) : ℚ) / inv * 10) 100
    else 0
  let score_amortisation :=
    match s.amortisation_jahre.getD none with
    | some amort => max 0 (100 - (amort - 5) * 4)
    | none => 0
  let npv := s.npv_chf.getD 0
  let score_npv := if 0 < inv then min (max (npv / inv * 100) 0) 100 else 0
  let score_co2_absolut := min (co2 / 1000 * 5) 100
  score_co2_effizienz * gewichtung.co2_effizienz +
    score_amortisation * gewichtung.amortisation +
    score_npv * gewichtung.npv +
    score_co2_absolut * gewichtung.co2_absolut

/-- The building fields read by the financial evaluator
(`gebaeude.get("heizung_typ", "Gas")`, `gebaeude.get("jahresverbrauch_kwh", 0)`
already resolved). -/
structure Gebaeude where
  heizung_typ : String
  jahresverbrauch_kwh : ℚ
deriving Repr, DecidableEq

/-- `wirtschaftlichkeit.wirtschaftlichkeitsanalyse` (lines 240-290), restricted
to the output keys later stages read (KPIs written back into the scenario
dict); the cash-flow table and the echoed savings columns are
presentation-only and omitted. The `energiepreise=None` default resolves to
the module table at call time (`st.energiepreise`); the remaining defaults of
the callees were bound to the module constants at definition time. -/
def wirtschaftlichkeitsanalyse (st : ModuleState) (s : Sanierung) (geb : Gebaeude) :
    Sanierung × ModuleState :=
  let einsparungen := berechne_jaehrliche_einsparung s geb.heizung_typ
      geb.jahresverbrauch_kwh st.energiepreise CO2_ABGABE_CHF_PRO_T
  let jaehrliche_einsparung := einsparungen.gesamteinsparung_chf_jahr
  let netto_inv := getNettoInvestition s
  let zeitraum := s.lebensdauer_jahre.getD NPV_ZEITRAUM_JAHRE
  ({ s with
      investition_netto_chf := some netto_inv
      amortisation_jahre := some (berechne_amortisation netto_inv jaehrliche_einsparung)
      npv_chf := some (berechne_npv netto_inv jaehrliche_einsparung zeitraum
        DISKONTIERUNGSSATZ PREISSTEIGERUNG_PROZENT)
      roi_prozent := some (berechne_roi netto_inv jaehrliche_einsparung)
      jaehrliche_einsparung_chf := some jaehrliche_einsparung }, st)

/-- One row of the sensitivity table (`szenario` label column is
presentation-only and omitted). -/
structure SensZeile where
  faktor : ℚ
  amortisation_jahre : Option ℚ
  npv_chf : ℚ
  roi_prozent : ℚ
  jaehrliche_einsparung_chf : ℚ
deriving Repr, DecidableEq

/-- The default multiplier list of `sensitivitaetsanalyse` (line 311). -/
def standardVariationen : List ℚ := [0.8, 0.9, 1.0, 1.1, 1.2, 1.5, 2.0]

/-- The KPI recomputation shared by the `energiepreis`, `co2_abgabe` and
default branches of the sweep loop (lines 330-337 etc.): net investment is
written into the local copy, then amortisation/NPV/ROI are recomputed from the
scaled annual savings. -/
def sensKpiZeile (s : Sanierung) (f : ℚ) (eins : Einsparung) : SensZeile :=
  let netto := getNettoInvestition s
  let jaehr := eins.gesamteinsparung_chf_jahr
  let zeitraum := s.lebensdauer_jahre.getD NPV_ZEITRAUM_JAHRE
  { faktor := f
    amortisation_jahre := berechne_amortisation netto jaehr
    npv_chf := berechne_npv netto jaehr zeitraum DISKONTIERUNGSSATZ PREISSTEIGERUNG_PROZENT
    roi_prozent := berechne_roi netto jaehr
    jaehrliche_einsparung_chf := jaehr }

/-- One iteration of the sweep loop of `sensitivitaetsanalyse` (lines 320-417):
the scenario is copied locally (value semantics here), the scaled price table /
tax rate is a local value, and the module state is read but never written. -/
def sensSchritt (st : ModuleState) (s : Sanierung) (geb : Gebaeude)
    (parameter : String) (base_brutto base_foerd f : ℚ) : SensZeile × ModuleState :=
  if parameter = "energiepreis" then
    let energiepreise_scaled := st.energiepreise.map (fun kv => (kv.1, kv.2 * f))
    let eins := berechne_jaehrliche_einsparung s geb.heizung_typ geb.jahresverbrauch_kwh
      energiepreise_scaled st.co2_abgabe
    (sensKpiZeile s f eins, st)
  else if parameter = "co2_abgabe" then
    let co2_abgabe_scaled := st.co2_abgabe * f
    let eins := berechne_jaehrliche_einsparung s geb.heizung_typ geb.jahresverbrauch_kwh
      st.energiepreise co2_abgabe_scaled
    (sensKpiZeile s f eins, st)
  else if parameter = "foerderung" then
    let san_kopie := { s with
      foerderung_chf := some (base_foerd * f)
      investition_brutto_chf := some base_brutto
      investition_netto_chf := some (max 0 (base_brutto - base_foerd * f)) }
    let analyse := (wirtschaftlichkeitsanalyse st san_kopie geb).1
    ({ faktor := f
       amortisation_jahre := analyse.amortisation_jahre.getD none
       npv_chf := analyse.npv_chf.getD 0
       roi_prozent := analyse.roi_prozent.getD 0
       jaehrliche_einsparung_chf := analyse.jaehrliche_einsparung_chf.getD 0 },
     (wirtschaftlichkeitsanalyse st san_kopie geb).2)
  else
    let energiepreise_scaled := st.energiepreise.map (fun kv => (kv.1, kv.2 * f))
    let eins := berechne_jaehrliche_einsparung s geb.heizung_typ geb.jahresverbrauch_kwh
      energiepreise_scaled st.co2_abgabe
    (sensKpiZeile s f eins, st)

/-- The `for faktor in variationen` loop of `sensitivitaetsanalyse`, threading
the module state through every iteration. -/
def sensSchleife (s : Sanierung) (geb : Gebaeude) (parameter : String)
    (base_brutto base_foerd : ℚ) : ModuleState → List ℚ → List SensZeile × ModuleState
  | st, [] => ([], st)
  | st, f :: rest =>
    let rs := sensSchritt st s geb parameter base_brutto base_foerd f
    let rest' := sensSchleife s geb parameter base_brutto base_foerd rs.2 rest
    (rs.1 :: rest'.1, rest'.2)

/-- `wirtschaftlichkeit.sensitivitaetsanalyse` (lines 296-419), after
resolution of the `variationen=None` default. -/
def sensitivitaetsanalyse (st : ModuleState) (s : Sanierung) (geb : Gebaeude)
    (parameter : String) (variationen : List ℚ) : List SensZeile × ModuleState :=
  sensSchleife s geb parameter (getBruttoInvestition s) (s.foerderung_chf.getD 0)
    st variationen

/-- The score-descending comparison of `portfolio_optimierung` (line 344). -/
def scoreAbsteigendLe (a b : Sanierung) : Bool :=
  decide (b.prioritaets_score.getD 0 ≤ a.prioritaets_score.getD 0)

/-- The net investment a greedy iteration reads from a scored option row. -/
def optionInvestition (s : Sanierung) : ℚ := s.investition_netto_chf.getD 0

/-- The greedy budget loop of `portfolio_optimierung` (lines 347-354): iterate
over all rows in order, take any row whose net investment still fits the
remaining budget, and never stop early. Returns the selected rows and the
remaining budget. -/
def greedyAuswahl : ℚ → List Sanierung → List Sanierung × ℚ
  | restbudget, [] => ([], restbudget)
  | restbudget, zeile :: rest =>
    let inv := optionInvestition zeile
    if inv ≤ restbudget then
      let r := greedyAuswahl (restbudget - inv) rest
      (zeile :: r.1, r.2)
    else
      greedyAuswahl restbudget rest

/-- The selection stage of `empfehlungen.portfolio_optimierung` (lines 342-354):
sort all scored options by priority score descending (stable), then greedy
selection under the budget. The upstream enumeration of options from the
building list (lines 329-340) produces the `alle_optionen` argument. -/
def portfolio_optimierung (budget_chf : ℚ) (alle_optionen : List Sanierung) :
    List Sanierung × ℚ :=
  greedyAuswahl budget_chf (alle_optionen.mergeSort scoreAbsteigendLe)

/-- The per-position decisions of the greedy loop over the list of net
investments: `true` at a position says that row was taken. -/
def greedyMaske : ℚ → List ℚ → List Bool
  | _, [] => []
  | rest, inv :: tl =>
    if inv ≤ rest then true :: greedyMaske (rest - inv) tl
    else false :: greedyMaske rest tl

/-- Total of the investments marked selected in a zipped (investment, taken)
list. -/
def maskeSumme (l : List (ℚ × Bool)) : ℚ :=
  ((l.filter (fun p => p.2)).map Prod.fst).sum

/-- The scenario exhibiting a priority score above 100: net investment 1000
CHF, 20 t CO2/year saved over 20 years. -/
def testSzenario : Sanierung :=
  { Sanierung.leer with
      co2_einsparung_kg_jahr := some 20000
      investition_netto_chf := some 1000
      lebensdauer_jahre := some 20 }

/-- A building row with a heating type absent from the KBOB table. -/
def testZeile : GebaeudeZeile :=
  { heizung_typ := "Holzvergaser", jahresverbrauch_kwh := 10000, strom_kwh_jahr := 5000 }

/-- A small scored option used to instantiate the portfolio theorem. -/
def beispielOption : Sanierung :=
  { Sanierung.leer with
      investition_netto_chf := some 40
      prioritaets_score := some 50 }

end CO2Calc

namespace CO2Calc

/-- Sum form of the NPV loop. -/
theorem npvSumme_eq_sum (save0 g r : ℚ) (n : ℕ) :
    npvSumme save0 g r n
      = Finset.sum (Finset.Icc 1 n) (fun y => save0 * (1 + g) ^ y / (1 + r) ^ y) := by
  induction n with
  | zero => simp [npvSumme]
  | succ n ih =>
    rw [npvSumme, ih, Finset.sum_Icc_succ_top (by omega : 1 ≤ n + 1)]

/-- With both rates zero every year contributes exactly `save0`. -/
theorem npvSumme_zero_rates (save0 : ℚ) (n : ℕ) :
    npvSumme save0 0 0 n = n * save0 := by
  induction n with
  | zero => simp [npvSumme]
  | succ n ih =>
    rw [npvSumme, ih]
    push_cast
    ring

/-- C3: `berechne_amortisation` returns `n / s` for positive annual savings and
positive infinity (modelled as `none`) for savings `≤ 0`, never an error; at
net investment 50000 and savings 4000 it returns exactly 12.5 years. -/
theorem berechne_amortisation_spec (n s : ℚ) :
    (0 < s → berechne_amortisation n s = some (n / s)) ∧
    (s ≤ 0 → berechne_amortisation n s = none) ∧
    berechne_amortisation 50000 4000 = some (25 / 2) := by
  refine ⟨fun hs => ?_, fun hs => ?_, ?_⟩
  · rw [berechne_amortisation, if_neg (by linarith)]
  · rw [berechne_amortisation, if_pos hs]
  · rw [berechne_amortisation, if_neg (by norm_num)]
    norm_num

/-- Witness for C3 at net investment 50000 and savings 4000. -/
theorem berechne_amortisation_spec_witness :
    0 < (4000 : ℚ) ∧ berechne_amortisation 50000 4000 = some (50000 / 4000) :=
  ⟨by norm_num, (berechne_amortisation_spec 50000 4000).1 (by norm_num)⟩

/-- C4: `berechne_npv` equals
`-netto + Σ_{y=1}^{N} save·(1+g/100)^y/(1+r/100)^y`; with both rates zero it
collapses to `-netto + N·save`, and concretely
`berechne_npv 50000 4000 25 0 0 = 50000`. -/
theorem berechne_npv_spec (netto save : ℚ) (N : ℕ) (r g : ℚ) :
    berechne_npv netto save N r g
        = -netto +
          Finset.sum (Finset.Icc 1 N)
            (fun y => save * (1 + g / 100) ^ y / (1 + r / 100) ^ y) ∧
    berechne_npv netto save N 0 0 = -netto + N * save ∧
    berechne_npv 50000 4000 25 0 0 = 50000 := by
  refine ⟨?_, ?_, ?_⟩
  · rw [berechne_npv, npvSumme_eq_sum]
  · rw [berechne_npv]
    norm_num [npvSumme_zero_rates]
  · rw [berechne_npv]
    norm_num [npvSumme_zero_rates]

/-- C10: `berechne_roi` is division-guarded on the investment side: any net
investment `≤ 0` yields ROI exactly 0 (also for positive savings), the division
branch is taken only for positive net investment, and a fully subsidised
measure (net investment 0, savings 5000) reports ROI 0. -/
theorem berechne_roi_spec (n s : ℚ) :
    (n ≤ 0 → berechne_roi n s = 0) ∧
    (0 < n → berechne_roi n s = s / n * 100) ∧
    berechne_roi 0 5000 = 0 := by
  refine ⟨fun hn => ?_, fun hn => ?_, ?_⟩
  · rw [berechne_roi, if_pos hn]
  · rw [berechne_roi, if_neg (by linarith)]
  · rw [berechne_roi, if_pos le_rfl]

/-- Witness for C10 at net investment 0 and savings 5000. -/
theorem berechne_roi_spec_witness :
    (0 : ℚ) ≤ 0 ∧ berechne_roi 0 5000 = 0 :=
  ⟨le_rfl, (berechne_roi_spec 0 5000).1 le_rfl⟩

/-- C8, counterexample: for the envelope scenario saving 1 kWh/year on an old
consumption of 0 kWh with fuel "Gas", the code clamps the residual consumption
at 0, so the new energy cost is 0 and not
`(0 - 1) · price("Gas") = -0.12` as the unclamped claim states. -/
theorem einsparung_envelope_counterexample :
    (berechne_jaehrliche_einsparung huelleSzenario "Gas" 0 ENERGIEPREISE
        CO2_ABGABE_CHF_PRO_T).neue_energiekosten_chf
      ≠ (0 - 1) * dictGet ENERGIEPREISE "Gas" 0.12 := by
  simp [berechne_jaehrliche_einsparung, huelleSzenario, Sanierung.leer, einsparungAbschluss,
    dictGet, ENERGIEPREISE, List.lookup]
  norm_num

/-- C8, amended: for every envelope scenario (an `energieeinsparung_kwh_jahr`
key and no `neue_heizung` key), every old fuel and non-negative consumption and
savings, the new energy cost is
`max 0 (old_consumption - energy_savings) · price(old_fuel)` — the residual
consumption is clamped at 0 before being priced. -/
theorem einsparung_envelope_neue_kosten (s : Sanierung) (alte_heizung : String)
    (verbrauch e : ℚ) (preise : List (String × ℚ)) (co2 : ℚ)
    (hnh : s.neue_heizung = none) (he : s.energieeinsparung_kwh_jahr = some e)
    (hv : 0 ≤ verbrauch) (he0 : 0 ≤ e) :
    (berechne_jaehrliche_einsparung s alte_heizung verbrauch preise co2).neue_energiekosten_chf
      = max 0 (verbrauch - e) * dictGet preise alte_heizung 0.12 := by
  rw [berechne_jaehrliche_einsparung, hnh, he]
  rfl

/-- Witness for the amended C8 on the concrete envelope scenario. -/
theorem einsparung_envelope_neue_kosten_witness :
    huelleSzenario.neue_heizung = none ∧
    huelleSzenario.energieeinsparung_kwh_jahr = some 1 ∧
    (0 : ℚ) ≤ 0 ∧ (0 : ℚ) ≤ 1 ∧
    (berechne_jaehrliche_einsparung huelleSzenario "Gas" 0 ENERGIEPREISE
        CO2_ABGABE_CHF_PRO_T).neue_energiekosten_chf
      = max 0 ((0 : ℚ) - 1) * dictGet ENERGIEPREISE "Gas" 0.12 :=
  ⟨rfl, rfl, le_rfl, by norm_num,
    einsparung_envelope_neue_kosten huelleSzenario "Gas" 0 1 ENERGIEPREISE
      CO2_ABGABE_CHF_PRO_T rfl rfl le_rfl (by norm_num)⟩

/-- A single sweep iteration leaves the module state untouched: every branch
works on a scaled local copy and returns the incoming state. -/
theorem sensSchritt_zustand (st : ModuleState) (s : Sanierung) (geb : Gebaeude)
    (parameter : String) (bb bf f : ℚ) :
    (sensSchritt st s geb parameter bb bf f).2 = st := by
  rw [sensSchritt]
  split_ifs <;> rfl

/-- The sweep loop leaves the module state untouched. -/
theorem sensSchleife_zustand (s : Sanierung) (geb : Gebaeude) (parameter : String)
    (bb bf : ℚ) (st : ModuleState) (vars : List ℚ) :
    (sensSchleife s geb parameter bb bf st vars).2 = st := by
  induction vars generalizing st with
  | nil => rfl
  | cons f rest ih =>
    show (sensSchleife s geb parameter bb bf
        (sensSchritt st s geb parameter bb bf f).2 rest).2 = st
    rw [ih, sensSchritt_zustand]

/-- C1: a sensitivity sweep over `energiepreis` does not mutate the module
state (price table and CO2-tax constant), running it twice with the same
inputs yields identical result tables, and it does not alter the result of a
subsequently run `co2_abgabe` sweep on the same scenario. -/
theorem sensitivitaetsanalyse_keine_mutation (st : ModuleState) (s : Sanierung)
    (geb : Gebaeude) (variationen variationen2 : List ℚ) :
    (sensitivitaetsanalyse st s geb "energiepreis" variationen).2 = st ∧
    (sensitivitaetsanalyse ((sensitivitaetsanalyse st s geb "energiepreis" variationen).2)
        s geb "energiepreis" variationen).1
      = (sensitivitaetsanalyse st s geb "energiepreis" variationen).1 ∧
    sensitivitaetsanalyse ((sensitivitaetsanalyse st s geb "energiepreis" variationen).2)
        s geb "co2_abgabe" variationen2
      = sensitivitaetsanalyse st s geb "co2_abgabe" variationen2 := by
  have h : (sensitivitaetsanalyse st s geb "energiepreis" variationen).2 = st :=
    sensSchleife_zustand s geb "energiepreis" (getBruttoInvestition s)
      (s.foerderung_chf.getD 0) st variationen
  exact ⟨h, by rw [h], by rw [h]⟩

/-- C7: each output row of `berechne_emissionen` carries
`heating_kg = consumption · factor(heating type)` — with the table's `Default`
factor when the type is absent — `electricity_kg = electricity · grid factor`,
their sum, and the sum divided by 1000. -/
theorem berechne_emissionen_spec (df : List GebaeudeZeile) (faktor_strom : ℚ)
    (custom : Option (List (String × ℚ))) (d : ℚ)
    (hd : (resolveHeizFaktoren custom).lookup "Default" = some d)
    (i : ℕ) (hi : i < df.length) :
    ∃ out, (berechne_emissionen df faktor_strom custom).get? i = some out ∧
      (∀ f, (resolveHeizFaktoren custom).lookup (df.get ⟨i, hi⟩).heizung_typ = some f →
        out.emissionen_heizen_kg = (df.get ⟨i, hi⟩).jahresverbrauch_kwh * f) ∧
      ((resolveHeizFaktoren custom).lookup (df.get ⟨i, hi⟩).heizung_typ = none →
        out.emissionen_heizen_kg = (df.get ⟨i, hi⟩).jahresverbrauch_kwh * d) ∧
      out.emissionen_strom_kg = (df.get ⟨i, hi⟩).strom_kwh_jahr * faktor_strom ∧
      out.emissionen_gesamt_kg = out.emissionen_heizen_kg + out.emissionen_strom_kg ∧
      out.emissionen_gesamt_t = out.emissionen_gesamt_kg / 1000 := by
  refine ⟨emissionenZeile (resolveHeizFaktoren custom) d faktor_strom (df.get ⟨i, hi⟩),
    ?_, ?_, ?_, ?_, ?_, ?_⟩
  · rw [berechne_emissionen]
    simp only [hd, Option.getD_some, List.get?_map, List.get?_eq_get hi]
    rfl
  · intro f hf
    rw [List.get_eq_getElem] at hf
    simp [emissionenZeile, hf]
  · intro hf
    rw [List.get_eq_getElem] at hf
    simp [emissionenZeile, hf]
  · rfl
  · rfl
  · rfl

/-- Witness for C7: one building row with the unknown heating type
"Holzvergaser", which falls back to the KBOB default factor. -/
theorem berechne_emissionen_spec_witness :
    (resolveHeizFaktoren none).lookup "Default" = some 0.05 ∧
    0 < [testZeile].length ∧
    ∃ out, (berechne_emissionen [testZeile] STROM_FAKTOR_CH none).get? 0 = some out ∧
      (∀ f, (resolveHeizFaktoren none).lookup
            (([testZeile].get ⟨0, by norm_num⟩).heizung_typ) = some f →
        out.emissionen_heizen_kg
          = ([testZeile].get ⟨0, by norm_num⟩).jahresverbrauch_kwh * f) ∧
      ((resolveHeizFaktoren none).lookup (([testZeile].get ⟨0, by norm_num⟩).heizung_typ)
          = none →
        out.emissionen_heizen_kg
          = ([testZeile].get ⟨0, by norm_num⟩).jahresverbrauch_kwh * 0.05) ∧
      out.emissionen_strom_kg
        = ([testZeile].get ⟨0, by norm_num⟩).strom_kwh_jahr * STROM_FAKTOR_CH ∧
      out.emissionen_gesamt_kg = out.emissionen_heizen_kg + out.emissionen_strom_kg ∧
      out.emissionen_gesamt_t = out.emissionen_gesamt_kg / 1000 :=
  ⟨by simp [resolveHeizFaktoren, KBOB_FAKTOREN, List.lookup]; norm_num,
   by norm_num,
   berechne_emissionen_spec [testZeile] STROM_FAKTOR_CH none 0.05
     (by simp [resolveHeizFaktoren, KBOB_FAKTOREN, List.lookup]; norm_num)
     0 (by norm_num)⟩

/-- A successful association-list lookup yields one of the stored values. -/
theorem lookup_mem_werte {β : Type} (l : List (String × β)) (k : String) (b : β)
    (h : l.lookup k = some b) : b ∈ l.map Prod.snd := by
  induction l with
  | nil => simp [List.lookup] at h
  | cons p tl ih =>
    obtain ⟨a, b'⟩ := p
    rw [List.lookup] at h
    rcases hab : (k == a) with _ | _
    · rw [hab] at h
      simpa using Or.inr (ih h)
    · rw [hab] at h
      simp only [Option.some.injEq] at h
      simpa using Or.inl h.symm

/-- Bounds for the subsidy computed from one config whose entries are all
non-negative: the result is non-negative, at most the gross investment, and at
most the configured cap. -/
theorem foerderungAusConfig_schranken (cfg : FoerderConfig) (investition : ℚ)
    (flaeche kwp : Option ℚ) (hinv : 0 ≤ investition)
    (hfl : ∀ a, flaeche = some a → 0 ≤ a) (hkw : ∀ k, kwp = some k → 0 ≤ k)
    (h1 : ∀ x, cfg.gebaeudeprogramm_chf = some x → 0 ≤ x)
    (h2 : ∀ x, cfg.gebaeudeprogramm_chf_pro_m2 = some x → 0 ≤ x)
    (h3 : ∀ x, cfg.einmalverguetung_chf_pro_kwp = some x → 0 ≤ x)
    (h4 : ∀ x, cfg.kanton_zusatz_prozent = some x → 0 ≤ x)
    (h5 : ∀ x, cfg.max_foerderung_chf = some x → 0 ≤ x) :
    0 ≤ foerderungAusConfig cfg investition flaeche kwp ∧
    foerderungAusConfig cfg investition flaeche kwp ≤ investition ∧
    (∀ m, cfg.max_foerderung_chf = some m →
      foerderungAusConfig cfg investition flaeche kwp ≤ m) := by
  have tpro : ∀ (o fo : Option ℚ), (∀ x, o = some x → 0 ≤ x) →
      (∀ a, fo = some a → 0 ≤ a) → 0 ≤ proEinheitTerm o fo := by
    intro o fo ho hfo
    rcases o with _ | satz <;> rcases fo with _ | a <;> simp [proEinheitTerm]
    split_ifs with ha
    · exact le_rfl
    · exact mul_nonneg (ho satz rfl) (hfo a rfl)
  have hsum : 0 ≤ foerderungTeilsumme cfg investition flaeche kwp := by
    rw [foerderungTeilsumme]
    have t1 : 0 ≤ cfg.gebaeudeprogramm_chf.getD 0 := by
      rcases hc : cfg.gebaeudeprogramm_chf with _ | x
      · simp
      · simpa using h1 x hc
    have t2 := tpro cfg.gebaeudeprogramm_chf_pro_m2 flaeche h2 hfl
    have t3 := tpro cfg.einmalverguetung_chf_pro_kwp kwp h3 hkw
    have t4 : 0 ≤ kantonZusatzTerm cfg.kanton_zusatz_prozent investition := by
      rcases hc : cfg.kanton_zusatz_prozent with _ | p
      · simp [kantonZusatzTerm]
      · rw [kantonZusatzTerm]
        exact mul_nonneg hinv (by linarith [h4 p hc])
    linarith
  refine ⟨?_, ?_, ?_⟩
  · rw [foerderungAusConfig]
    rcases hm : cfg.max_foerderung_chf with _ | m
    · exact le_min hsum hinv
    · exact le_min (le_min hsum (h5 m hm)) hinv
  · exact min_le_right _ _
  · intro m hm
    rw [foerderungAusConfig, hm]
    exact le_trans (min_le_left _ _) (min_le_right _ _)

/-- C5: for every renovation id, non-negative gross investment and
non-negative optional area/capacity, the subsidy satisfies
`0 ≤ subsidy ≤ min(gross investment, configured cap)`, and ids without a
configured rule get exactly 0. -/
theorem berechne_foerderung_schranken (sanierung_id : String) (investition : ℚ)
    (flaeche kwp : Option ℚ) (hinv : 0 ≤ investition)
    (hfl : ∀ a, flaeche = some a → 0 ≤ a) (hkw : ∀ k, kwp = some k → 0 ≤ k) :
    0 ≤ berechne_foerderung sanierung_id investition flaeche kwp ∧
    berechne_foerderung sanierung_id investition flaeche kwp ≤ investition ∧
    (∀ cfg m, FOERDERGELDER.lookup sanierung_id = some cfg →
      cfg.max_foerderung_chf = some m →
      berechne_foerderung sanierung_id investition flaeche kwp ≤ m) ∧
    (FOERDERGELDER.lookup sanierung_id = none →
      berechne_foerderung sanierung_id investition flaeche kwp = 0) := by
  rcases hlk : FOERDERGELDER.lookup sanierung_id with _ | cfg
  · have hz : berechne_foerderung sanierung_id investition flaeche kwp = 0 := by
      rw [berechne_foerderung, hlk]
    refine ⟨by rw [hz], by rw [hz]; exact hinv, ?_, fun _ => hz⟩
    intro cfg m hc hm
    cases hc
  · have hmem : cfg ∈ FOERDERGELDER.map Prod.snd := lookup_mem_werte _ _ _ hlk
    have hok : (∀ x, cfg.gebaeudeprogramm_chf = some x → 0 ≤ x) ∧
        (∀ x, cfg.gebaeudeprogramm_chf_pro_m2 = some x → 0 ≤ x) ∧
        (∀ x, cfg.einmalverguetung_chf_pro_kwp = some x → 0 ≤ x) ∧
        (∀ x, cfg.kanton_zusatz_prozent = some x → 0 ≤ x) ∧
        (∀ x, cfg.max_foerderung_chf = some x → 0 ≤ x) := by
      simp only [FOERDERGELDER, List.map_cons, List.map_nil, List.mem_cons,
        List.not_mem_nil, or_false] at hmem
      rcases hmem with rfl | rfl | rfl | rfl | rfl | rfl <;>
        refine ⟨?_, ?_, ?_, ?_, ?_⟩ <;> intro x hx <;> cases hx <;> norm_num
    obtain ⟨g1, g2, g3, g4, g5⟩ := hok
    have hb := foerderungAusConfig_schranken cfg investition flaeche kwp hinv hfl hkw
      g1 g2 g3 g4 g5
    have hz : berechne_foerderung sanierung_id investition flaeche kwp
        = foerderungAusConfig cfg investition flaeche kwp := by
      rw [berechne_foerderung, hlk]
    refine ⟨by rw [hz]; exact hb.1, by rw [hz]; exact hb.2.1, ?_, ?_⟩
    · intro cfg' m hc' hm
      injection hc' with hc'
      subst hc'
      rw [hz]
      exact hb.2.2 m hm
    · intro hn
      cases hn

/-- Witness for C5 on the façade-insulation rule: gross investment 100000 CHF
and 200 m² of treated area. -/
theorem berechne_foerderung_schranken_witness :
    (0 : ℚ) ≤ 100000 ∧
    0 ≤ berechne_foerderung "daemmung_fassade" 100000 (some 200) none ∧
    berechne_foerderung "daemmung_fassade" 100000 (some 200) none ≤ 100000 :=
  ⟨by norm_num,
   (berechne_foerderung_schranken "daemmung_fassade" 100000 (some 200) none
     (by norm_num)
     (fun a ha => by injection ha with ha; subst ha; norm_num)
     (fun k hk => by cases hk)).1,
   (berechne_foerderung_schranken "daemmung_fassade" 100000 (some 200) none
     (by norm_num)
     (fun a ha => by injection ha with ha; subst ha; norm_num)
     (fun k hk => by cases hk)).2.1⟩

/-- Each escalated, discounted year contributes at least the base saving when
the (non-negative) discount rate does not exceed the escalation rate. -/
theorem npvSumme_ge (save g r : ℚ) (n : ℕ) (hs : 0 ≤ save) (hr : 0 ≤ r)
    (hrg : r ≤ g) : (n : ℚ) * save ≤ npvSumme save g r n := by
  induction n with
  | zero => simp [npvSumme]
  | succ n ih =>
    rw [npvSumme]
    have h1 : (0 : ℚ) < (1 + r) ^ (n + 1) := pow_pos (by linarith) _
    have h2 : (1 + r) ^ (n + 1) ≤ (1 + g) ^ (n + 1) :=
      pow_le_pow_left (by linarith) (by linarith) _
    have h3 : save ≤ save * (1 + g) ^ (n + 1) / (1 + r) ^ (n + 1) := by
      rw [le_div_iff h1]
      exact mul_le_mul_of_nonneg_left h2 hs
    push_cast
    linarith

/-- C2 is violated by the code (whose docstring promises a score in [0, 100]):
the fully evaluated scenario `testSzenario` — net investment 1000 CHF, 20 t
CO2/year saved over 20 years, hence amortisation 5/12 years — receives a
default-weight priority score of 1255/12 ≈ 104.6 > 100, because the
amortisation sub-score `max(0, 100 - (amort - 5) * 4)` exceeds 100 whenever
amortisation is below 5 years. -/
theorem prioritaets_score_ueber_100 :
    100 < berechne_prioritaets_score
        (wirtschaftlichkeitsanalyse initState testSzenario
          { heizung_typ := "Gas", jahresverbrauch_kwh := 0 }).1
        standardGewichtung := by
  have hA : (wirtschaftlichkeitsanalyse initState testSzenario
        { heizung_typ := "Gas", jahresverbrauch_kwh := 0 }).1
      = { testSzenario with
            investition_netto_chf := some 1000
            amortisation_jahre := some (some (5 / 12))
            npv_chf := some (berechne_npv 1000 2400 20 DISKONTIERUNGSSATZ
              PREISSTEIGERUNG_PROZENT)
            roi_prozent := some 240
            jaehrliche_einsparung_chf := some 2400 } := by
    rw [wirtschaftlichkeitsanalyse]
    norm_num [initState, berechne_jaehrliche_einsparung, einsparungAbschluss, dictGet,
      ENERGIEPREISE, List.lookup, CO2_ABGABE_CHF_PRO_T, getNettoInvestition,
      berechne_amortisation, berechne_roi, testSzenario, Sanierung.leer,
      NPV_ZEITRAUM_JAHRE, max_def]
  have hV : (47000 : ℚ) ≤ berechne_npv 1000 2400 20 DISKONTIERUNGSSATZ
      PREISSTEIGERUNG_PROZENT := by
    have h := npvSumme_ge 2400 (PREISSTEIGERUNG_PROZENT / 100) (DISKONTIERUNGSSATZ / 100)
      20 (by norm_num) (by norm_num [DISKONTIERUNGSSATZ])
      (by norm_num [DISKONTIERUNGSSATZ, PREISSTEIGERUNG_PROZENT])
    rw [berechne_npv]
    push_cast at h
    linarith
  rw [hA]
  simp only [berechne_prioritaets_score, standardGewichtung, testSzenario, Sanierung.leer]
  norm_num [min_def, max_def]
  have h1 : ¬ (berechne_npv 1000 2400 20 DISKONTIERUNGSSATZ PREISSTEIGERUNG_PROZENT
      / 1000 * 100 ≤ 0) := by linarith
  have h2 : ¬ (berechne_npv 1000 2400 20 DISKONTIERUNGSSATZ PREISSTEIGERUNG_PROZENT
      / 1000 * 100 ≤ 100) := by linarith
  simp only [if_neg h1, if_neg h2]
  norm_num

/-- The score-descending comparison is transitive. -/
theorem scoreAbsteigendLe_trans (a b c : Sanierung) (h1 : scoreAbsteigendLe a b)
    (h2 : scoreAbsteigendLe b c) : scoreAbsteigendLe a c := by
  simp only [scoreAbsteigendLe, decide_eq_true_eq] at h1 h2 ⊢
  linarith

/-- The score-descending comparison is total. -/
theorem scoreAbsteigendLe_total (a b : Sanierung) :
    scoreAbsteigendLe a b || scoreAbsteigendLe b a := by
  simp only [scoreAbsteigendLe, Bool.or_eq_true, decide_eq_true_eq]
  exact le_total _ _

/-- The masked total over a cons adds the investment exactly when the row is
marked selected. -/
theorem maskeSumme_cons (q : ℚ × Bool) (l : List (ℚ × Bool)) :
    maskeSumme (q :: l) = (if q.2 then q.1 else 0) + maskeSumme l := by
  rcases q with ⟨x, b⟩
  cases b <;> simp [maskeSumme, List.filter_cons]

/-- The greedy loop equals mask-filtering: it selects exactly the rows the
greedy decision mask marks, and its remaining budget is the start budget minus
the selected total. -/
theorem greedyAuswahl_eq_maske (restbudget : ℚ) (l : List Sanierung) :
    greedyAuswahl restbudget l
      = (((l.zip (greedyMaske restbudget (l.map optionInvestition))).filter
            (fun p => p.2)).map Prod.fst,
         restbudget - maskeSumme ((l.map optionInvestition).zip
            (greedyMaske restbudget (l.map optionInvestition)))) := by
  induction l generalizing restbudget with
  | nil => simp [greedyAuswahl, greedyMaske, maskeSumme]
  | cons z tl ih =>
    simp only [greedyAuswahl, greedyMaske, List.map_cons]
    by_cases h : optionInvestition z ≤ restbudget
    · rw [if_pos h, if_pos h, ih]
      simp only [List.zip_cons_cons, List.filter_cons, List.map_cons, maskeSumme_cons]
      norm_num
      ring
    · rw [if_neg h, if_neg h, ih]
      simp only [List.zip_cons_cons, List.filter_cons, maskeSumme_cons]
      norm_num

/-- Position-wise characterisation of the greedy decisions: a row is taken if
and only if its investment fits the budget left after the rows taken before
it. -/
theorem greedyMaske_charakterisierung (invs : List ℚ) (rest : ℚ)
    (p : List (ℚ × Bool)) (x : ℚ) (b : Bool) (s : List (ℚ × Bool))
    (h : invs.zip (greedyMaske rest invs) = p ++ (x, b) :: s) :
    b = true ↔ x ≤ rest - maskeSumme p := by
  induction invs generalizing rest p with
  | nil =>
    rw [greedyMaske] at h
    simp at h
  | cons inv tl ih =>
    rw [greedyMaske] at h
    by_cases hc : inv ≤ rest
    · rw [if_pos hc, List.zip_cons_cons] at h
      cases p with
      | nil =>
        simp only [List.nil_append, List.cons.injEq, Prod.mk.injEq] at h
        obtain ⟨⟨hx, hb⟩, -⟩ := h
        subst hx
        subst hb
        simp [maskeSumme, hc]
      | cons q p' =>
        simp only [List.cons_append, List.cons.injEq] at h
        obtain ⟨hq, h'⟩ := h
        subst hq
        have harith : rest - maskeSumme ((inv, true) :: p')
            = rest - inv - maskeSumme p' := by
          rw [maskeSumme_cons]
          norm_num
          ring
        rw [harith]
        exact ih (rest - inv) p' h'
    · rw [if_neg hc, List.zip_cons_cons] at h
      cases p with
      | nil =>
        simp only [List.nil_append, List.cons.injEq, Prod.mk.injEq] at h
        obtain ⟨⟨hx, hb⟩, -⟩ := h
        subst hx
        subst hb
        simp [maskeSumme, hc]
      | cons q p' =>
        simp only [List.cons_append, List.cons.injEq] at h
        obtain ⟨hq, h'⟩ := h
        subst hq
        have harith : rest - maskeSumme ((inv, false) :: p')
            = rest - maskeSumme p' := by
          rw [maskeSumme_cons]
          norm_num
        rw [harith]
        exact ih rest p' h'

/-- As long as the budget starts non-negative, the greedy selection never
spends more than it. -/
theorem greedyMaske_budget (invs : List ℚ) (rest : ℚ) (h : 0 ≤ rest) :
    maskeSumme (invs.zip (greedyMaske rest invs)) ≤ rest := by
  induction invs generalizing rest with
  | nil => simpa [greedyMaske, maskeSumme]
  | cons inv tl ih =>
    rw [greedyMaske]
    by_cases hc : inv ≤ rest
    · rw [if_pos hc, List.zip_cons_cons]
      have hrec := ih (rest - inv) (by linarith)
      rw [maskeSumme_cons]
      norm_num
      linarith
    · rw [if_neg hc, List.zip_cons_cons]
      have hrec := ih rest h
      rw [maskeSumme_cons]
      norm_num
      exact hrec

/-- Selected investments of the zipped scenario list equal the masked sum over
the zipped investment list. -/
theorem maskeSumme_map (l : List Sanierung) (m : List Bool) :
    maskeSumme ((l.map optionInvestition).zip m)
      = ((((l.zip m).filter (fun p => p.2)).map Prod.fst).map optionInvestition).sum := by
  induction l generalizing m with
  | nil => simp [maskeSumme]
  | cons z tl ih =>
    cases m with
    | nil => simp [maskeSumme]
    | cons b mb =>
      cases b <;>
        simp [maskeSumme_cons, List.zip_cons_cons, List.filter_cons, ih mb]

/-- C9: the selection stage of `portfolio_optimierung` processes the scored
options in descending-score order, never stops at an unaffordable row — a row
is selected iff its net investment fits the budget remaining after all
previously selected rows — and the selected total never exceeds the budget. -/
theorem portfolio_optimierung_spec (budget_chf : ℚ) (alle_optionen : List Sanierung)
    (hb : 0 ≤ budget_chf) :
    (alle_optionen.mergeSort scoreAbsteigendLe).Pairwise
        (fun a b => scoreAbsteigendLe a b = true) ∧
    (portfolio_optimierung budget_chf alle_optionen).1
      = (((alle_optionen.mergeSort scoreAbsteigendLe).zip
            (greedyMaske budget_chf
              ((alle_optionen.mergeSort scoreAbsteigendLe).map optionInvestition))).filter
          (fun p => p.2)).map Prod.fst ∧
    (∀ p x b s,
        ((alle_optionen.mergeSort scoreAbsteigendLe).map optionInvestition).zip
            (greedyMaske budget_chf
              ((alle_optionen.mergeSort scoreAbsteigendLe).map optionInvestition))
          = p ++ (x, b) :: s →
        (b = true ↔ x ≤ budget_chf - maskeSumme p)) ∧
    ((portfolio_optimierung budget_chf alle_optionen).1.map optionInvestition).sum
        ≤ budget_chf := by
  have hgreedy := greedyAuswahl_eq_maske budget_chf
    (alle_optionen.mergeSort scoreAbsteigendLe)
  refine ⟨List.sorted_mergeSort scoreAbsteigendLe_trans scoreAbsteigendLe_total _,
    ?_, ?_, ?_⟩
  · show (greedyAuswahl budget_chf (alle_optionen.mergeSort scoreAbsteigendLe)).1 = _
    rw [hgreedy]
  · intro p x b s hp
    exact greedyMaske_charakterisierung _ budget_chf p x b s hp
  · show ((greedyAuswahl budget_chf
        (alle_optionen.mergeSort scoreAbsteigendLe)).1.map optionInvestition).sum ≤ _
    rw [hgreedy]
    rw [← maskeSumme_map]
    exact greedyMaske_budget _ budget_chf hb

/-- Witness for C9: budget 100 CHF and a single option costing 40 CHF. -/
theorem portfolio_optimierung_spec_witness :
    (0 : ℚ) ≤ 100 ∧
    ((portfolio_optimierung 100 [beispielOption]).1.map optionInvestition).sum ≤ 100 :=
  ⟨by norm_num,
   (portfolio_optimierung_spec 100 [beispielOption] (by norm_num)).2.2.2⟩

end CO2Calc
